import Mathlib

/-!
Shallow embedding of the AWS CDK stack declared in
`lib/wordpress-app-stack.ts` of the wordpress-on-aws repository.

The constructor of `WordpressThreeTierStack` is straight-line code: a fixed
sequence of resource declarations (VPC, security groups, Secrets Manager
secret, RDS instance, ECS cluster, ALB with one listener, IAM role, Fargate
task definition with one container, Fargate service, target group, scaling
policy, CloudFront distribution, three CfnOutputs).  We translate each
declaration into a Lean record, and each mutating helper call
(`addIngressRule`, `addContainer`, `addPortMappings`,
`attachToApplicationTargetGroup`, `addTargetGroups`, `autoScaleTaskCount`,
`scaleOnCpuUtilization`) into a pure function that returns the updated
record.  Cross-resource references (the peer of an ingress rule, the
security groups of the database, the origin of the distribution, ...) are
modelled by the construct id of the referenced resource, the way the
synthesized template refers to resources.  Deploy-time attribute values
(endpoint address, DNS name, domain name) are modelled as `Token.getAtt`
values, mirroring the CloudFormation GetAtt references the CDK emits.
-/

namespace WordpressOnAws

/-- Deploy-time attribute reference of a declared resource (CloudFormation
GetAtt), used for endpoint addresses and DNS names. -/
inductive Token where
  | getAtt (resourceId : String) (attr : String)
deriving DecidableEq, Repr

/-- A string-valued configuration field: either a literal string or a
deploy-time token. -/
inductive StrVal where
  | lit (s : String)
  | tok (t : Token)
deriving DecidableEq, Repr

/-- Source peer of a security group ingress rule: `ec2.Peer.anyIpv4()` or a
reference to another security group. -/
inductive Peer where
  | anyIpv4
  | sgPeer (sgId : String)
deriving DecidableEq, Repr

/-- A connection port; the stack only uses `ec2.Port.tcp(n)`. -/
inductive Port where
  | tcp (port : Nat)
deriving DecidableEq, Repr

/-- One ingress rule added with `SecurityGroup.addIngressRule`. -/
structure IngressRule where
  peer : Peer
  port : Port
  description : String
deriving DecidableEq, Repr

/-- An `ec2.SecurityGroup` declaration. -/
structure SecurityGroup where
  constructId : String
  vpcId : String
  description : String
  allowAllOutbound : Bool
  ingress : List IngressRule
deriving DecidableEq, Repr

/-- Model of `sg.addIngressRule(peer, port, description)`: appends one
ingress rule. -/
def SecurityGroup.addIngressRule (sg : SecurityGroup) (peer : Peer)
    (port : Port) (description : String) : SecurityGroup :=
  { sg with ingress := sg.ingress ++ [⟨peer, port, description⟩] }

/-- The `ec2.Vpc` declaration. -/
structure Vpc where
  constructId : String
  maxAzs : Nat
  natGateways : Nat
deriving DecidableEq, Repr

/-- Subnet selection used by `vpcSubnets: { subnetType: ... }`. -/
inductive SubnetType where
  | publicSubnet
  | privateWithEgress
  | privateIsolated
deriving DecidableEq, Repr

/-- A `secretsmanager.Secret` declaration with a generated secret string. -/
structure Secret where
  constructId : String
  secretName : String
  excludePunctuation : Bool
  passwordLength : Nat
deriving DecidableEq, Repr

/-- Database credentials as produced by `rds.Credentials.fromSecret`.  The
repository passes only the secret, so no master username is specified in the
declaration (the optional username argument of `fromSecret` is absent). -/
structure Credentials where
  secretId : String
  username : Option String
deriving DecidableEq, Repr

/-- Model of `rds.Credentials.fromSecret(secret)` as the repository calls
it: a reference to the secret and no username. -/
def Credentials.fromSecret (s : Secret) : Credentials :=
  { secretId := s.constructId, username := none }

/-- A `rds.DatabaseInstance` declaration. -/
structure DatabaseInstance where
  constructId : String
  engineType : String
  engineVersion : String
  instClass : String
  instSize : String
  vpcId : String
  subnetType : SubnetType
  securityGroupIds : List String
  databaseName : String
  credentials : Credentials
  backupRetentionDays : Nat
  deletionProtection : Bool
  storageEncrypted : Bool
deriving DecidableEq, Repr

/-- Deploy-time endpoint address of the database instance
(`dbInstance.dbInstanceEndpointAddress`). -/
def DatabaseInstance.dbInstanceEndpointAddress (d : DatabaseInstance) : Token :=
  Token.getAtt d.constructId "Endpoint.Address"

/-- An `ecs.Cluster` declaration. -/
structure Cluster where
  constructId : String
  vpcId : String
  containerInsights : Bool
deriving DecidableEq, Repr

/-- An `elbv2.ApplicationLoadBalancer` declaration. -/
structure ApplicationLoadBalancer where
  constructId : String
  vpcId : String
  internetFacing : Bool
  securityGroupId : String
deriving DecidableEq, Repr

/-- Deploy-time DNS name of the load balancer
(`alb.loadBalancerDnsName`). -/
def ApplicationLoadBalancer.loadBalancerDnsName
    (a : ApplicationLoadBalancer) : Token :=
  Token.getAtt a.constructId "DNSName"

/-- Listener added with `alb.addListener`; `targetGroupIds` records the
target groups registered with `addTargetGroups`. -/
structure Listener where
  constructId : String
  albId : String
  port : Nat
  openToAnyIpv4 : Bool
  targetGroupIds : List String
deriving DecidableEq, Repr

/-- Model of `listener.addTargetGroups(id, { targetGroups })`. -/
def Listener.addTargetGroups (l : Listener) (tgIds : List String) : Listener :=
  { l with targetGroupIds := l.targetGroupIds ++ tgIds }

/-- An `iam.Role` declaration. -/
structure Role where
  constructId : String
  assumedByService : String
deriving DecidableEq, Repr

/-- Port mapping added with `container.addPortMappings`. -/
structure PortMapping where
  containerPort : Nat
deriving DecidableEq, Repr

/-- A container secret reference created with
`ecs.Secret.fromSecretsManager`. -/
structure EcsSecret where
  secretId : String
deriving DecidableEq, Repr

/-- Model of `ecs.Secret.fromSecretsManager(secret)`. -/
def EcsSecret.fromSecretsManager (s : Secret) : EcsSecret :=
  { secretId := s.constructId }

/-- A container definition added with `taskDefinition.addContainer`. -/
structure ContainerDefinition where
  name : String
  image : String
  logDriver : String
  logStream : String
  environment : List (String × StrVal)
  secrets : List (String × EcsSecret)
  portMappings : List PortMapping
deriving DecidableEq, Repr

/-- Model of `container.addPortMappings({ containerPort })`. -/
def ContainerDefinition.addPortMappings (c : ContainerDefinition)
    (pm : PortMapping) : ContainerDefinition :=
  { c with portMappings := c.portMappings ++ [pm] }

/-- An `ecs.FargateTaskDefinition` declaration. -/
structure FargateTaskDefinition where
  constructId : String
  memoryLimitMiB : Nat
  cpu : Nat
  taskRoleId : String
  containers : List ContainerDefinition
deriving DecidableEq, Repr

/-- Model of `taskDefinition.addContainer`. -/
def FargateTaskDefinition.addContainer (td : FargateTaskDefinition)
    (c : ContainerDefinition) : FargateTaskDefinition :=
  { td with containers := td.containers ++ [c] }

/-- An `ecs.FargateService` declaration. -/
structure FargateService where
  constructId : String
  clusterId : String
  taskDefinitionId : String
  desiredCount : Nat
  securityGroupIds : List String
  subnetType : SubnetType
  assignPublicIp : Bool
  healthCheckGracePeriodSec : Nat
deriving DecidableEq, Repr

/-- Application protocol of a target group. -/
inductive ApplicationProtocol where
  | http
  | https
deriving DecidableEq, Repr

/-- Target type of a target group. -/
inductive TargetType where
  | ip
  | instanceTarget
deriving DecidableEq, Repr

/-- An `elbv2.ApplicationTargetGroup` declaration; `attachedTargets`
records the services attached with `attachToApplicationTargetGroup`. -/
structure ApplicationTargetGroup where
  constructId : String
  vpcId : String
  port : Nat
  protocol : ApplicationProtocol
  targetType : TargetType
  healthCheckPath : String
  healthCheckIntervalSec : Nat
  attachedTargets : List String
deriving DecidableEq, Repr

/-- Model of `service.attachToApplicationTargetGroup(targetGroup)`:
registers the service as a target of the group. -/
def ApplicationTargetGroup.attachService (tg : ApplicationTargetGroup)
    (serviceId : String) : ApplicationTargetGroup :=
  { tg with attachedTargets := tg.attachedTargets ++ [serviceId] }

/-- A CPU-utilization scaling policy added with
`scaling.scaleOnCpuUtilization`. -/
structure CpuScalingPolicy where
  policyId : String
  targetUtilizationPercent : Nat
  scaleInCooldownSec : Nat
  scaleOutCooldownSec : Nat
deriving DecidableEq, Repr

/-- The scalable task count created with `service.autoScaleTaskCount`. -/
structure ScalableTaskCount where
  serviceId : String
  minCapacity : Nat
  maxCapacity : Nat
  cpuPolicies : List CpuScalingPolicy
deriving DecidableEq, Repr

/-- Model of `scaling.scaleOnCpuUtilization(id, props)`. -/
def ScalableTaskCount.scaleOnCpuUtilization (s : ScalableTaskCount)
    (p : CpuScalingPolicy) : ScalableTaskCount :=
  { s with cpuPolicies := s.cpuPolicies ++ [p] }

/-- CloudFront origin protocol policy. -/
inductive OriginProtocolPolicy where
  | httpOnly
  | httpsOnly
  | matchViewer
deriving DecidableEq, Repr

/-- CloudFront viewer protocol policy. -/
inductive ViewerProtocolPolicy where
  | allowAll
  | httpsOnly
  | redirectToHttps
deriving DecidableEq, Repr

/-- CloudFront allowed-methods setting. -/
inductive AllowedMethods where
  | allowGetHead
  | allowGetHeadOptions
  | allowAll
deriving DecidableEq, Repr

/-- CloudFront managed cache policy. -/
inductive CachePolicy where
  | cachingOptimized
  | cachingDisabled
deriving DecidableEq, Repr

/-- CloudFront managed origin request policy. -/
inductive OriginRequestPolicy where
  | allViewer
deriving DecidableEq, Repr

/-- CloudFront price class. -/
inductive PriceClass where
  | priceClass100
  | priceClass200
  | priceClassAll
deriving DecidableEq, Repr

/-- The load-balancer origin of the distribution
(`origins.LoadBalancerV2Origin`). -/
structure LoadBalancerV2Origin where
  lbId : String
  protocolPolicy : OriginProtocolPolicy
deriving DecidableEq, Repr

/-- The default behavior of the CloudFront distribution. -/
structure DefaultBehavior where
  origin : LoadBalancerV2Origin
  cachePolicy : CachePolicy
  viewerProtocolPolicy : ViewerProtocolPolicy
  allowedMethods : AllowedMethods
  originRequestPolicy : OriginRequestPolicy
  compress : Bool
deriving DecidableEq, Repr

/-- A `cloudfront.Distribution` declaration. -/
structure Distribution where
  constructId : String
  defaultBehavior : DefaultBehavior
  priceClass : PriceClass
deriving DecidableEq, Repr

/-- Deploy-time domain name of the distribution
(`distribution.distributionDomainName`). -/
def Distribution.distributionDomainName (d : Distribution) : Token :=
  Token.getAtt d.constructId "DomainName"

/-- A `cdk.CfnOutput` declaration. -/
structure CfnOutput where
  constructId : String
  value : StrVal
  description : String
deriving DecidableEq, Repr

/-- The `cdk.StackProps` argument of the constructor; its fields configure
the stack envelope, not the resources this repository declares. -/
structure StackProps where
  env : Option String := none
  stackDescription : Option String := none
deriving DecidableEq, Repr

/-- The full set of declarations produced by one run of the
`WordpressThreeTierStack` constructor, one field per named binding of the
source. -/
structure Stack where
  vpc : Vpc
  albSg : SecurityGroup
  ecsSg : SecurityGroup
  dbSg : SecurityGroup
  dbPassword : Secret
  dbInstance : DatabaseInstance
  cluster : Cluster
  alb : ApplicationLoadBalancer
  httpListener : Listener
  taskRole : Role
  taskDefinition : FargateTaskDefinition
  wordpressContainer : ContainerDefinition
  wordpressService : FargateService
  targetGroup : ApplicationTargetGroup
  scaling : ScalableTaskCount
  distribution : Distribution
  outputs : List CfnOutput
deriving DecidableEq, Repr

/-- One top-level resource declaration, for counting what the stack
declares. -/
inductive Resource where
  | vpcR (v : Vpc)
  | sgR (s : SecurityGroup)
  | secretR (s : Secret)
  | dbR (d : DatabaseInstance)
  | clusterR (c : Cluster)
  | albR (a : ApplicationLoadBalancer)
  | roleR (r : Role)
  | taskDefR (t : FargateTaskDefinition)
  | serviceR (s : FargateService)
  | tgR (t : ApplicationTargetGroup)
  | distR (d : Distribution)
deriving DecidableEq, Repr

/-- The top-level resources a stack declares, in declaration order. -/
def Stack.resources (st : Stack) : List Resource :=
  [Resource.vpcR st.vpc, Resource.sgR st.albSg, Resource.sgR st.ecsSg,
   Resource.sgR st.dbSg, Resource.secretR st.dbPassword,
   Resource.dbR st.dbInstance, Resource.clusterR st.cluster,
   Resource.albR st.alb, Resource.roleR st.taskRole,
   Resource.taskDefR st.taskDefinition,
   Resource.serviceR st.wordpressService, Resource.tgR st.targetGroup,
   Resource.distR st.distribution]

/-- The VPC reference carried by each resource that is declared inside the
VPC. -/
def Stack.vpcRefs (st : Stack) : List String :=
  [st.albSg.vpcId, st.ecsSg.vpcId, st.dbSg.vpcId, st.dbInstance.vpcId,
   st.cluster.vpcId, st.alb.vpcId, st.targetGroup.vpcId]

/-- Whether a resource is a CloudFront distribution. -/
def Resource.isDistribution : Resource → Bool
  | Resource.distR _ => true
  | _ => false

/-- Whether a resource is a Fargate service. -/
def Resource.isService : Resource → Bool
  | Resource.serviceR _ => true
  | _ => false

/-- Whether a resource is a database instance. -/
def Resource.isDatabase : Resource → Bool
  | Resource.dbR _ => true
  | _ => false

/-- Whether a resource is a VPC. -/
def Resource.isVpc : Resource → Bool
  | Resource.vpcR _ => true
  | _ => false

/-- The `WordpressThreeTierStack` constructor, translated declaration by
declaration from `lib/wordpress-app-stack.ts`.  The scope, id and props
arguments configure the stack envelope only; no declared resource field
reads them, mirroring the source, whose constructor body mentions `props`
only in the `super` call. -/
def mkWordpressThreeTierStack (scope : String) (id : String)
    (props : StackProps) : Stack :=
  let vpc : Vpc := { constructId := "WordpressVPC", maxAzs := 2, natGateways := 1 }
  let albSg : SecurityGroup :=
    { constructId := "AlbSecurityGroup", vpcId := vpc.constructId,
      description := "Security group for ALB", allowAllOutbound := true,
      ingress := [] }
  let albSg := albSg.addIngressRule Peer.anyIpv4 (Port.tcp 80) "Allow HTTP traffic"
  let albSg := albSg.addIngressRule Peer.anyIpv4 (Port.tcp 443) "Allow HTTPS traffic"
  let ecsSg : SecurityGroup :=
    { constructId := "EcsSecurityGroup", vpcId := vpc.constructId,
      description := "Security group for ECS", allowAllOutbound := true,
      ingress := [] }
  let ecsSg := ecsSg.addIngressRule (Peer.sgPeer albSg.constructId)
    (Port.tcp 80) "Allow traffic from ALB"
  let dbSg : SecurityGroup :=
    { constructId := "DbSecurityGroup", vpcId := vpc.constructId,
      description := "Security group for RDS", allowAllOutbound := true,
      ingress := [] }
  let dbSg := dbSg.addIngressRule (Peer.sgPeer ecsSg.constructId)
    (Port.tcp 3306) "Allow MySQL traffic from ECS"
  let dbPassword : Secret :=
    { constructId := "DBPassword", secretName := "wordpress-db-password",
      excludePunctuation := true, passwordLength := 16 }
  let dbInstance : DatabaseInstance :=
    { constructId := "WordpressDatabase", engineType := "mysql",
      engineVersion := "8.0", instClass := "BURSTABLE3", instSize := "SMALL",
      vpcId := vpc.constructId,
      subnetType := SubnetType.privateWithEgress,
      securityGroupIds := [dbSg.constructId],
      databaseName := "wordpress",
      credentials := Credentials.fromSecret dbPassword,
      backupRetentionDays := 7,
      deletionProtection := false,
      storageEncrypted := true }
  let cluster : Cluster :=
    { constructId := "WordpressCluster", vpcId := vpc.constructId,
      containerInsights := true }
  let alb : ApplicationLoadBalancer :=
    { constructId := "WordpressALB", vpcId := vpc.constructId,
      internetFacing := true, securityGroupId := albSg.constructId }
  let httpListener : Listener :=
    { constructId := "HttpListener", albId := alb.constructId, port := 80,
      openToAnyIpv4 := true, targetGroupIds := [] }
  let taskRole : Role :=
    { constructId := "WordpressTaskRole",
      assumedByService := "ecs-tasks.amazonaws.com" }
  let taskDefinition : FargateTaskDefinition :=
    { constructId := "WordpressTaskDef", memoryLimitMiB := 2048, cpu := 1024,
      taskRoleId := taskRole.constructId, containers := [] }
  let wordpressContainer : ContainerDefinition :=
    { name := "WordpressContainer", image := "wordpress:latest",
      logDriver := "awslogs", logStream := "wordpress",
      environment :=
        [("WORDPRESS_DB_HOST", StrVal.tok dbInstance.dbInstanceEndpointAddress),
         ("WORDPRESS_DB_NAME", StrVal.lit "wordpress"),
         ("WORDPRESS_DB_USER", StrVal.lit "admin")],
      secrets :=
        [("WORDPRESS_DB_PASSWORD", EcsSecret.fromSecretsManager dbPassword)],
      portMappings := [] }
  let wordpressContainer := wordpressContainer.addPortMappings { containerPort := 80 }
  let taskDefinition := taskDefinition.addContainer wordpressContainer
  let wordpressService : FargateService :=
    { constructId := "WordpressService", clusterId := cluster.constructId,
      taskDefinitionId := taskDefinition.constructId, desiredCount := 2,
      securityGroupIds := [ecsSg.constructId],
      subnetType := SubnetType.privateWithEgress,
      assignPublicIp := false, healthCheckGracePeriodSec := 60 }
  let targetGroup : ApplicationTargetGroup :=
    { constructId := "WordpressTargetGroup", vpcId := vpc.constructId,
      port := 80, protocol := ApplicationProtocol.http,
      targetType := TargetType.ip, healthCheckPath := "/",
      healthCheckIntervalSec := 30, attachedTargets := [] }
  let targetGroup := targetGroup.attachService wordpressService.constructId
  let httpListener := httpListener.addTargetGroups [targetGroup.constructId]
  let scaling : ScalableTaskCount :=
    { serviceId := wordpressService.constructId, minCapacity := 2,
      maxCapacity := 10, cpuPolicies := [] }
  let scaling := scaling.scaleOnCpuUtilization
    { policyId := "CpuScaling", targetUtilizationPercent := 70,
      scaleInCooldownSec := 60, scaleOutCooldownSec := 60 }
  let distribution : Distribution :=
    { constructId := "WordpressDistribution",
      defaultBehavior :=
        { origin := { lbId := alb.constructId,
                      protocolPolicy := OriginProtocolPolicy.httpOnly },
          cachePolicy := CachePolicy.cachingOptimized,
          viewerProtocolPolicy := ViewerProtocolPolicy.redirectToHttps,
          allowedMethods := AllowedMethods.allowAll,
          originRequestPolicy := OriginRequestPolicy.allViewer,
          compress := true },
      priceClass := PriceClass.priceClass100 }
  { vpc := vpc, albSg := albSg, ecsSg := ecsSg, dbSg := dbSg,
    dbPassword := dbPassword, dbInstance := dbInstance, cluster := cluster,
    alb := alb, httpListener := httpListener, taskRole := taskRole,
    taskDefinition := taskDefinition, wordpressContainer := wordpressContainer,
    wordpressService := wordpressService, targetGroup := targetGroup,
    scaling := scaling, distribution := distribution,
    outputs :=
      [{ constructId := "LoadBalancerDNS",
         value := StrVal.tok alb.loadBalancerDnsName,
         description := "ALB DNS Name" },
       { constructId := "CloudFrontDomainName",
         value := StrVal.tok distribution.distributionDomainName,
         description := "CloudFront Domain Name" },
       { constructId := "DatabaseEndpoint",
         value := StrVal.tok dbInstance.dbInstanceEndpointAddress,
         description := "RDS Database Endpoint" }] }

/-- The (input-independent) declaration graph of the stack. -/
def wordpressStack : Stack :=
  mkWordpressThreeTierStack "app" "WordpressThreeTierStack" {}

/-- Helper: the constructor ignores scope, id and props when building the
declared resources, so every run yields `wordpressStack`. -/
theorem mkWordpressThreeTierStack_eq (scope id : String) (props : StackProps) :
    mkWordpressThreeTierStack scope id props = wordpressStack := rfl

/-- Claim C1: the declared security-group ingress rules form the three-tier
chain — the ALB group admits TCP 80 and TCP 443 from any IPv4 address, the
ECS group admits TCP 80 only from the ALB group, the database group admits
TCP 3306 only from the ECS group, and these exact lists are all the ingress
rules declared on the three groups. -/
theorem c1_security_group_chain (scope id : String) (props : StackProps) :
    let st := mkWordpressThreeTierStack scope id props
    st.albSg.ingress =
      [⟨Peer.anyIpv4, Port.tcp 80, "Allow HTTP traffic"⟩,
       ⟨Peer.anyIpv4, Port.tcp 443, "Allow HTTPS traffic"⟩] ∧
    st.ecsSg.ingress =
      [⟨Peer.sgPeer st.albSg.constructId, Port.tcp 80,
        "Allow traffic from ALB"⟩] ∧
    st.dbSg.ingress =
      [⟨Peer.sgPeer st.ecsSg.constructId, Port.tcp 3306,
        "Allow MySQL traffic from ECS"⟩] := by
  simp only [mkWordpressThreeTierStack_eq]
  decide

/-- Claim C2, evaluated on the code: the container environment ties
WORDPRESS_DB_HOST to the database endpoint token, WORDPRESS_DB_NAME to the
declared database name wordpress, and WORDPRESS_DB_PASSWORD to the same
secret that backs the database credentials — but the credentials are built
by Credentials.fromSecret with no username, so the declared credentials
carry no master username at all, and in particular none equal to the
literal admin that the code writes into WORDPRESS_DB_USER.  The last
conjunct exhibits this divergence from the claim. -/
theorem c2_db_wiring_evaluated (scope id : String) (props : StackProps) :
    let st := mkWordpressThreeTierStack scope id props
    st.wordpressContainer.environment.lookup "WORDPRESS_DB_HOST"
      = some (StrVal.tok st.dbInstance.dbInstanceEndpointAddress) ∧
    st.wordpressContainer.environment.lookup "WORDPRESS_DB_NAME"
      = some (StrVal.lit st.dbInstance.databaseName) ∧
    st.dbInstance.databaseName = "wordpress" ∧
    st.wordpressContainer.secrets.lookup "WORDPRESS_DB_PASSWORD"
      = some (EcsSecret.fromSecretsManager st.dbPassword) ∧
    st.dbInstance.credentials.secretId = st.dbPassword.constructId ∧
    st.wordpressContainer.environment.lookup "WORDPRESS_DB_USER"
      = some (StrVal.lit "admin") ∧
    st.dbInstance.credentials.username = none := by
  simp only [mkWordpressThreeTierStack_eq]
  decide

/-- Claim C3: the stack declares exactly one CDN distribution, one Fargate
service, one database instance and one VPC; the distribution origin is the
load balancer; the internet-facing ALB has a port-80 listener forwarding to
the target group to which the Fargate service is attached; the database
engine is MySQL 8.0; and every resource declared in a VPC references the
single declared VPC. -/
theorem c3_three_tiers (scope id : String) (props : StackProps) :
    let st := mkWordpressThreeTierStack scope id props
    st.resources.countP Resource.isDistribution = 1 ∧
    st.resources.countP Resource.isService = 1 ∧
    st.resources.countP Resource.isDatabase = 1 ∧
    st.resources.countP Resource.isVpc = 1 ∧
    st.distribution.defaultBehavior.origin.lbId = st.alb.constructId ∧
    st.alb.internetFacing = true ∧
    st.httpListener.albId = st.alb.constructId ∧
    st.httpListener.port = 80 ∧
    st.httpListener.targetGroupIds = [st.targetGroup.constructId] ∧
    st.targetGroup.attachedTargets = [st.wordpressService.constructId] ∧
    st.wordpressService.clusterId = st.cluster.constructId ∧
    st.dbInstance.engineType = "mysql" ∧
    st.dbInstance.engineVersion = "8.0" ∧
    st.vpcRefs = List.replicate 7 st.vpc.constructId := by
  simp only [mkWordpressThreeTierStack_eq]
  decide

/-- Claim C4: the database and the Fargate service are placed in
private-with-egress subnets, the service tasks get no public IP, and the
load balancer is the one resource declared internet-facing. -/
theorem c4_private_placement (scope id : String) (props : StackProps) :
    let st := mkWordpressThreeTierStack scope id props
    st.dbInstance.subnetType = SubnetType.privateWithEgress ∧
    st.wordpressService.subnetType = SubnetType.privateWithEgress ∧
    st.wordpressService.assignPublicIp = false ∧
    st.alb.internetFacing = true := by
  simp only [mkWordpressThreeTierStack_eq]
  decide

/-- Claim C5: the stack exports exactly three outputs, in order the ALB DNS
name, the CloudFront domain name and the database endpoint address, each
the deploy-time attribute token of the corresponding declared resource. -/
theorem c5_outputs (scope id : String) (props : StackProps) :
    let st := mkWordpressThreeTierStack scope id props
    st.outputs =
      [⟨"LoadBalancerDNS", StrVal.tok st.alb.loadBalancerDnsName,
        "ALB DNS Name"⟩,
       ⟨"CloudFrontDomainName",
        StrVal.tok st.distribution.distributionDomainName,
        "CloudFront Domain Name"⟩,
       ⟨"DatabaseEndpoint",
        StrVal.tok st.dbInstance.dbInstanceEndpointAddress,
        "RDS Database Endpoint"⟩] := by
  simp only [mkWordpressThreeTierStack_eq]
  decide

/-- Claim C6: the autoscaling thresholds are exactly minimum 2, maximum 10
with 2 at most 10, a single CPU policy at 70 percent with 60-second
scale-in and scale-out cooldowns, and the desired count 2 lies in the
interval between minimum and maximum capacity. -/
theorem c6_scaling_thresholds (scope id : String) (props : StackProps) :
    let st := mkWordpressThreeTierStack scope id props
    st.scaling.minCapacity = 2 ∧
    st.scaling.maxCapacity = 10 ∧
    st.scaling.minCapacity ≤ st.scaling.maxCapacity ∧
    st.scaling.cpuPolicies = [⟨"CpuScaling", 70, 60, 60⟩] ∧
    st.wordpressService.desiredCount = 2 ∧
    st.scaling.minCapacity ≤ st.wordpressService.desiredCount ∧
    st.wordpressService.desiredCount ≤ st.scaling.maxCapacity := by
  simp only [mkWordpressThreeTierStack_eq]
  decide

/-- Claim C7: stack construction is deterministic and depends on nothing
outside its inputs — any two runs of the constructor, on equal or on
arbitrary scope, id and props, produce the same declaration graph. -/
theorem c7_deterministic_construction (s1 i1 : String) (p1 : StackProps)
    (s2 i2 : String) (p2 : StackProps) :
    mkWordpressThreeTierStack s1 i1 p1 = mkWordpressThreeTierStack s2 i2 p2 :=
  rfl

/-- Claim C8: the constructor is total and has no error path authored in
this repository — translated from the branch-free straight-line source it
is a total function, and every invocation returns the complete declaration
graph: the fixed stack with all 13 top-level resources and 3 outputs. -/
theorem c8_total_constructor (scope id : String) (props : StackProps) :
    mkWordpressThreeTierStack scope id props = wordpressStack ∧
    (mkWordpressThreeTierStack scope id props).resources.length = 13 ∧
    (mkWordpressThreeTierStack scope id props).outputs.length = 3 := by
  simp only [mkWordpressThreeTierStack_eq]
  decide

/-- Claim C9: the default behavior of the CDN distribution redirects viewer
HTTP to HTTPS, reaches its load-balancer origin over HTTP only, allows all
HTTP methods and enables compression. -/
theorem c9_cdn_protocol_policies (scope id : String) (props : StackProps) :
    let st := mkWordpressThreeTierStack scope id props
    st.distribution.defaultBehavior.viewerProtocolPolicy
      = ViewerProtocolPolicy.redirectToHttps ∧
    st.distribution.defaultBehavior.origin.protocolPolicy
      = OriginProtocolPolicy.httpOnly ∧
    st.distribution.defaultBehavior.allowedMethods
      = AllowedMethods.allowAll ∧
    st.distribution.defaultBehavior.compress = true := by
  simp only [mkWordpressThreeTierStack_eq]
  decide

/-- Claim C10: the database instance is declared with deletion protection
disabled while storage encryption is enabled and backup retention is 7
days. -/
theorem c10_db_protection_settings (scope id : String) (props : StackProps) :
    let st := mkWordpressThreeTierStack scope id props
    st.dbInstance.deletionProtection = false ∧
    st.dbInstance.storageEncrypted = true ∧
    st.dbInstance.backupRetentionDays = 7 := by
  simp only [mkWordpressThreeTierStack_eq]
  decide

end WordpressOnAws
